import Mathlib

/-!
Shallow embedding of the gaze-signal processing and calibration pipeline of
`src/src/App.jsx` (Neurogaze).  JavaScript numbers are idealized as exact
rationals (`ℚ`); JavaScript `toFixed(k)` is modelled as rounding with ties
toward positive infinity, per the ECMAScript definition ("pick the larger n").
Strings keep the source's literal values.
-/

namespace Neurogaze

/-- `clamp` from App.jsx line 35: `Math.min(Math.max(value, min), max)`. -/
def clamp (value lo hi : ℚ) : ℚ := min (max value lo) hi

/-- `classifyMovement` from App.jsx lines 37-45. -/
def classifyMovement (velocity openness blinkThreshold fixationThreshold : ℚ) :
    String :=
  if openness < blinkThreshold then "Blink"
  else if velocity < fixationThreshold then "Fixation"
  else "Saccade"

/-- `BLINK_THRESHOLD` constant (App.jsx line 48). -/
def BLINK_THRESHOLD : ℚ := 18 / 100

/-- `FIXATION_VELOCITY_THRESHOLD` constant (App.jsx line 49). -/
def FIXATION_VELOCITY_THRESHOLD : ℚ := 15 / 1000

/-- `blinkOpenThreshold` (App.jsx line 1014, local constant 0.24). -/
def blinkOpenThreshold : ℚ := 24 / 100

/-- 2-D point with rational coordinates (`{x, y}` objects in App.jsx). -/
structure Point where
  x : ℚ
  y : ℚ
  deriving DecidableEq, Repr

/-- Per-eye affine calibration model (App.jsx lines 61-66). -/
structure CalibrationModel where
  scaleX : ℚ
  offsetX : ℚ
  scaleY : ℚ
  offsetY : ℚ
  deriving DecidableEq, Repr

/-- `defaultCalibrationModel` from App.jsx lines 61-66. -/
def defaultCalibrationModel : CalibrationModel :=
  { scaleX := 1, offsetX := 0, scaleY := 1, offsetY := 0 }

/-- `mean` from App.jsx lines 68-69: sum divided by `length || 1`
(empty list divides by 1, giving 0). -/
def mean (values : List ℚ) : ℚ :=
  values.sum / (if values.length = 0 then 1 else (values.length : ℚ))

/-- Result of a per-axis fit (`{scale, offset}` in App.jsx). -/
structure AxisMap where
  scale : ℚ
  offset : ℚ
  deriving DecidableEq, Repr

/-- `computeAxisMapping` from App.jsx lines 71-93.  The `variance` local is
the raw sum of squared deviations (no division by the count); `covariance`
is likewise the raw sum of products, pairing `measuredValues[i]` with
`targetValues[i]` (embedded via `zip`; the two callers always pass lists of
equal length).  The `|| 0` on the reduce is the identity for a sum of
squares over exact rationals. -/
def computeAxisMapping (measuredValues targetValues : List ℚ) : AxisMap :=
  let meanMeasured := mean measuredValues
  let meanTarget := mean targetValues
  let variance :=
    (measuredValues.map (fun v => (v - meanMeasured) * (v - meanMeasured))).sum
  if variance < 1 / 1000000 then
    { scale := 1, offset := meanTarget - meanMeasured }
  else
    let covariance :=
      ((measuredValues.zip targetValues).map
        (fun p => (p.1 - meanMeasured) * (p.2 - meanTarget))).sum
    let scale := covariance / variance
    { scale := scale, offset := meanTarget - scale * meanMeasured }

/-- One calibration pair `{measured, target}` (App.jsx lines 949-960). -/
structure CalPair where
  measured : Point
  target : Point
  deriving DecidableEq, Repr

/-- `computeLinearMapping` from App.jsx lines 95-113. -/
def computeLinearMapping (pairs : List CalPair) : CalibrationModel :=
  if pairs.length = 0 then defaultCalibrationModel
  else
    let measuredX := pairs.map (fun pair => pair.measured.x)
    let targetX := pairs.map (fun pair => pair.target.x)
    let measuredY := pairs.map (fun pair => pair.measured.y)
    let targetY := pairs.map (fun pair => pair.target.y)
    let mapX := computeAxisMapping measuredX targetX
    let mapY := computeAxisMapping measuredY targetY
    { scaleX := mapX.scale, offsetX := mapX.offset,
      scaleY := mapY.scale, offsetY := mapY.offset }

/-- `applyCalibration` from App.jsx lines 432-440, on the non-null path
(the JS null guards return the point unchanged and are unreachable when
both arguments are present). -/
def applyCalibration (model : CalibrationModel) (point : Point) : Point :=
  { x := clamp (model.scaleX * point.x + model.offsetX) 0 1,
    y := clamp (model.scaleY * point.y + model.offsetY) 0 1 }

/-- `AGGREGATED_CSV_HEADERS` from App.jsx lines 124-147, verbatim and in
source order. -/
def AGGREGATED_CSV_HEADERS : List String :=
  ["Tracking_F_1", "Tracking_F_2", "Tracking_F_3", "Tracking_F_4",
   "Pupil_Diam_1", "Pupil_Diam_2", "Pupil_Diam_3", "Pupil_Diam_4",
   "Pupil_Diam_5", "Pupil_Diam_6",
   "Pupil_Diam_7", "Pupil_Diam_8", "Pupil_Diam_9", "Pupil_Diam_10",
   "Pupil_Diam_11", "Pupil_Diam_12",
   "GazePoint_of_I_1", "GazePoint_of_I_2", "GazePoint_of_I_3",
   "GazePoint_of_I_4", "GazePoint_of_I_5", "GazePoint_of_I_6",
   "GazePoint_of_I_7", "GazePoint_of_I_8", "GazePoint_of_I_9",
   "GazePoint_of_I_10", "GazePoint_of_I_11", "GazePoint_of_I_12",
   "Recording_1", "Recording_2", "Recording_3",
   "gaze_hori_1", "gaze_hori_2", "gaze_hori_3", "gaze_hori_4",
   "gaze_vert_1", "gaze_vert_2", "gaze_vert_3", "gaze_vert_4",
   "gaze_velo_1", "gaze_velo_2", "gaze_velo_3", "gaze_velo_4",
   "blink_count_1", "blink_count_2", "blink_count_3", "blink_count_4",
   "fix_count_1", "fix_count_2", "fix_count_3", "fix_count_4",
   "sac_count_1", "sac_count_2", "sac_count_3", "sac_count_4",
   "Source_File", "level_2",
   "trial_dur_1", "trial_dur_2",
   "sampling_rate_1",
   "blink_rate_1", "fixation_rate_1", "saccade_rate_1",
   "fix_dur_avg_1", "sac_amp_avg_1", "sac_peak_vel_avg_1",
   "right_eye_c_1", "right_eye_c_2", "right_eye_c_3",
   "left_eye_c_1", "left_eye_c_2", "left_eye_c_3",
   "avg_eye_c_1", "avg_eye_c_2", "avg_eye_c_3",
   "pupil_diam_avg_1", "gaze_hori_avg_1", "gaze_vert_avg_1",
   "Participant", "Gender", "Age", "Class", "CARS_Score_is_ASD",
   "Gender_encoded"]

/-- The six metadata columns the spec excludes from the numeric feature
vector. -/
def metadataColumns : List String :=
  ["Source_File", "level_2", "Participant", "Gender", "Class",
   "CARS_Score_is_ASD"]

/-- Modelled from the spec: the schema column list exactly as enumerated in
the external-interface section of the spec (the bracketed ranges such as
`Tracking_F_\x7b1..4\x7d` expanded by suffix generation), to compare against
the source's `AGGREGATED_CSV_HEADERS`. -/
def specSchemaColumns : List String :=
  ((List.range 4).map (fun i => "Tracking_F_" ++ toString (i + 1))) ++
  ((List.range 12).map (fun i => "Pupil_Diam_" ++ toString (i + 1))) ++
  ((List.range 12).map (fun i => "GazePoint_of_I_" ++ toString (i + 1))) ++
  ((List.range 3).map (fun i => "Recording_" ++ toString (i + 1))) ++
  ((List.range 4).map (fun i => "gaze_hori_" ++ toString (i + 1))) ++
  ((List.range 4).map (fun i => "gaze_vert_" ++ toString (i + 1))) ++
  ((List.range 4).map (fun i => "gaze_velo_" ++ toString (i + 1))) ++
  ((List.range 4).map (fun i => "blink_count_" ++ toString (i + 1))) ++
  ((List.range 4).map (fun i => "fix_count_" ++ toString (i + 1))) ++
  ((List.range 4).map (fun i => "sac_count_" ++ toString (i + 1))) ++
  ["Source_File", "level_2"] ++
  ((List.range 2).map (fun i => "trial_dur_" ++ toString (i + 1))) ++
  ["sampling_rate_1", "blink_rate_1", "fixation_rate_1", "saccade_rate_1",
   "fix_dur_avg_1", "sac_amp_avg_1", "sac_peak_vel_avg_1"] ++
  ((List.range 3).map (fun i => "right_eye_c_" ++ toString (i + 1))) ++
  ((List.range 3).map (fun i => "left_eye_c_" ++ toString (i + 1))) ++
  ((List.range 3).map (fun i => "avg_eye_c_" ++ toString (i + 1))) ++
  ["pupil_diam_avg_1", "gaze_hori_avg_1", "gaze_vert_avg_1",
   "Participant", "Gender", "Age", "Class", "CARS_Score_is_ASD",
   "Gender_encoded"]

/-- The global blink state (App.jsx `blinkState`, values `open`/`closed`;
`opened` stands for the JS string `open`, a reserved word in Lean). -/
inductive BlinkState where
  | opened
  | closed
  deriving DecidableEq, Repr

/-- One step of the blink state machine (App.jsx lines 1016-1025): the new
state together with the increment applied to `blinkCount` on this step. -/
def blinkStep (state : BlinkState) (averageOpenness : ℚ) : BlinkState × ℕ :=
  if averageOpenness < BLINK_THRESHOLD ∧ state = .opened then (.closed, 1)
  else if blinkOpenThreshold < averageOpenness ∧ state = .closed then
    (.opened, 0)
  else (state, 0)

/-- Run the blink state machine over a window of average-openness values,
accumulating the blink counter (the per-frame loop of `onResults`). -/
def runBlink (state : BlinkState) (window : List ℚ) : BlinkState × ℕ :=
  window.foldl
    (fun acc openness =>
      let step := blinkStep acc.1 openness
      (step.1, acc.2 + step.2))
    (state, 0)

/-- Number of open-to-closed transitions performed while running the blink
state machine over a window (for comparison with the blink counter). -/
def openToClosedCount (state : BlinkState) (window : List ℚ) : ℕ :=
  match window with
  | [] => 0
  | o :: rest =>
    let step := blinkStep state o
    (if state = .opened ∧ step.1 = .closed then 1 else 0) +
      openToClosedCount step.1 rest

/-- Frame counters of `metricsInternalRef` (`samplesTotal`, `samplesValid`;
App.jsx lines 505-506). -/
structure TrackCounters where
  samplesTotal : ℕ
  samplesValid : ℕ
  deriving DecidableEq, Repr

/-- One frame of `onResults` restricted to the counters: the total counter
always increments (line 875); the valid counter increments exactly when
face landmarks are present (line 878). -/
def processFrame (c : TrackCounters) (facePresent : Bool) : TrackCounters :=
  { samplesTotal := c.samplesTotal + 1,
    samplesValid := c.samplesValid + (if facePresent then 1 else 0) }

/-- Counters after a sequence of processed frames, starting from the zeroed
session state. -/
def runFrames (frames : List Bool) : TrackCounters :=
  frames.foldl processFrame { samplesTotal := 0, samplesValid := 0 }

/-- JavaScript `x.toFixed(2)` followed by `Number(...)`, idealized over `ℚ`:
round to 2 decimal places, ties toward positive infinity. -/
def round2 (x : ℚ) : ℚ := ((⌊x * 100 + 1 / 2⌋ : ℤ) : ℚ) / 100

/-- The tracking ratio computed in `onResults` (App.jsx lines 1114-1123):
`(samplesValid / samplesTotal * 100).toFixed(2)` when any frame has been
seen, else 0. -/
def trackingRatioOf (c : TrackCounters) : ℚ :=
  if 0 < c.samplesTotal then
    round2 ((c.samplesValid : ℚ) / (c.samplesTotal : ℚ) * 100)
  else 0

/-- One gaze sample pushed into `assessmentRef.current.samples`
(App.jsx lines 1144-1160); the ISO timestamp string is omitted as wall-clock
text, irrelevant to aggregation. -/
structure GazeSample where
  recordingTimeMs : ℚ
  categoryRight : String
  categoryLeft : String
  pupilDiameterRightMm : ℚ
  pupilDiameterLeftMm : ℚ
  pointOfRegardRightX : ℚ
  pointOfRegardRightY : ℚ
  pointOfRegardLeftX : ℚ
  pointOfRegardLeftY : ℚ
  trackingRatio : ℚ
  deriving DecidableEq, Repr

/-- `segmentSize` in `computeAggregatedFeatures` (App.jsx line 234):
`Math.ceil(samples.length / 4)`. -/
def segmentSizeOf (n : ℕ) : ℕ := (n + 3) / 4

/-- Segment index of sample `idx` in a window of `n` samples
(App.jsx line 240): `Math.min(3, Math.floor(idx / segmentSize))`. -/
def segmentIndex (n idx : ℕ) : ℕ := min 3 (idx / segmentSizeOf n)

/-- Whether sample `s` counts toward category `cat`: either eye exhibits it
(App.jsx lines 241-243). -/
def sampleHasCategory (s : GazeSample) (cat : String) : Prop :=
  s.categoryRight = cat ∨ s.categoryLeft = cat

instance (s : GazeSample) (cat : String) : Decidable (sampleHasCategory s cat) := by
  unfold sampleHasCategory
  infer_instance

/-- The per-segment count of samples exhibiting `cat` in segment `seg`
(the `blinkCounts`/`fixCounts`/`sacCounts` accumulation of App.jsx
lines 235-244, expressed as a filter over the indexed window). -/
def segmentCount (samples : List GazeSample) (cat : String) (seg : ℕ) : ℕ :=
  (samples.enum.filter
    (fun p => segmentIndex samples.length p.1 = seg ∧
      sampleHasCategory p.2 cat)).length

/-- Total count of samples in the window exhibiting `cat`. -/
def categoryCount (samples : List GazeSample) (cat : String) : ℕ :=
  (samples.filter (fun s => sampleHasCategory s cat)).length

/-- The `fixDurations` list built by the pairwise loop of
`computeAggregatedFeatures` (App.jsx lines 197-231): one entry `dt` (in
seconds) per consecutive pair with `dt > 0` whose previous and current
samples both have `categoryRight = 'Fixation'` (lines 227-229; only the
right eye is consulted). -/
def fixDurationsOf (samples : List GazeSample) : List ℚ :=
  (samples.zip samples.tail).filterMap
    (fun p =>
      let dt := (p.2.recordingTimeMs - p.1.recordingTimeMs) / 1000
      if 0 < dt ∧ p.2.categoryRight = "Fixation" ∧
          p.1.categoryRight = "Fixation" then
        some dt
      else none)

/-- `fixDurAvg` (App.jsx line 284): mean of `fixDurations`, 0 when empty. -/
def fixDurAvgOf (samples : List GazeSample) : ℚ :=
  let ds := fixDurationsOf samples
  if ds.length = 0 then 0 else ds.sum / (ds.length : ℚ)

/-- `genderEncoded` (App.jsx line 306):
`gender === 'M' ? 1 : (gender === 'F' ? 0 : 0.5)`. -/
def genderEncodedOf (gender : String) : ℚ :=
  if gender = "M" then 1 else if gender = "F" then 0 else 1 / 2

/-- The fields of the aggregated feature record that this development
reasons about, drawn from the record literal of `computeAggregatedFeatures`
(App.jsx lines 309-394).  The statistical summaries built on square roots
(standard deviations, `Math.hypot` velocities) are irrational over `ℚ` and
no claim concerns their values, so they are not carried. -/
structure AggregatedFeatures where
  blinkCount1 : ℕ
  blinkCount2 : ℕ
  blinkCount3 : ℕ
  blinkCount4 : ℕ
  fixCount1 : ℕ
  fixCount2 : ℕ
  fixCount3 : ℕ
  fixCount4 : ℕ
  sacCount1 : ℕ
  sacCount2 : ℕ
  sacCount3 : ℕ
  sacCount4 : ℕ
  sourceFile : String
  level2 : String
  fixDurAvg : ℚ
  gender : String
  age : ℚ
  genderEncoded : ℚ
  deriving DecidableEq, Repr

/-- `computeAggregatedFeatures` (App.jsx lines 171-395): `null` (here
`none`) when the sample window is empty (lines 172-174); otherwise the
feature record, restricted to the carried fields.  The `age` argument is
the numeric value of `parseFloat(age) || 0` (string parsing is upstream of
this embedding). -/
def computeAggregatedFeatures (samples : List GazeSample) (age : ℚ)
    (gender : String) : Option AggregatedFeatures :=
  if samples.length = 0 then none
  else
    some
      { blinkCount1 := segmentCount samples "Blink" 0,
        blinkCount2 := segmentCount samples "Blink" 1,
        blinkCount3 := segmentCount samples "Blink" 2,
        blinkCount4 := segmentCount samples "Blink" 3,
        fixCount1 := segmentCount samples "Fixation" 0,
        fixCount2 := segmentCount samples "Fixation" 1,
        fixCount3 := segmentCount samples "Fixation" 2,
        fixCount4 := segmentCount samples "Fixation" 3,
        sacCount1 := segmentCount samples "Saccade" 0,
        sacCount2 := segmentCount samples "Saccade" 1,
        sacCount3 := segmentCount samples "Saccade" 2,
        sacCount4 := segmentCount samples "Saccade" 3,
        sourceFile := "web-app",
        level2 := "GazePoint_of_I",
        fixDurAvg := fixDurAvgOf samples,
        gender := gender,
        age := age,
        genderEncoded := genderEncodedOf gender }

/-- The error-or-features outcome of `finalizeAssessment`
(App.jsx lines 611-617): a `null` aggregate surfaces the session error and
no record is serialized; otherwise the record is serialized from the
aggregate. -/
def finalizeAssessment (samples : List GazeSample) (age : ℚ)
    (gender : String) : Except String AggregatedFeatures :=
  match computeAggregatedFeatures samples age gender with
  | none => .error "Unable to compute features from samples."
  | some features => .ok features

/-- A CSV cell value as `formatCsvCell` receives it: absent (`null` or
`undefined`), numeric (idealized as an exact rational, so the JS `NaN` and
non-finite guards have no inhabitants), or any other value coerced to a
string. -/
inductive CsvValue where
  | null
  | num (q : ℚ)
  | str (s : String)
  deriving DecidableEq, Repr

/-- Strip one trailing zero from a fractional-digit block `(digits, width)`. -/
def stripOnce (p : ℕ × ℕ) : ℕ × ℕ :=
  if p.1 % 10 = 0 then (p.1 / 10, p.2 - 1) else p

/-- Minimal form of a nonzero 3-digit fractional block: the value with
trailing zeros removed together with the remaining digit width (a nonzero
3-digit block has at most two trailing zeros). -/
def fracDigits (f : ℕ) : ℕ × ℕ := stripOnce (stripOnce (f, 3))

/-- Left-pad a digit string with zeros to width `w`. -/
def padZeros (s : String) (w : ℕ) : String :=
  String.mk (List.replicate (w - s.length) '0') ++ s

/-- JS `Number(value.toFixed(3)).toString()` for a rational `value`:
round to 3 decimal places with ties toward positive infinity (the
ECMAScript `toFixed` rule), re-read the digit string as a number, and
render it minimally (trailing fractional zeros dropped, `-0` rendered as
`0`). -/
def renderFixed3 (q : ℚ) : String :=
  let r : ℤ := ⌊q * 1000 + 1 / 2⌋
  if r = 0 then "0"
  else
    let sign := if r < 0 then "-" else ""
    let a := r.natAbs
    let intPart := a / 1000
    let frac := a % 1000
    if frac = 0 then sign ++ toString intPart
    else
      let fw := fracDigits frac
      sign ++ toString intPart ++ "." ++ padZeros (toString fw.1) fw.2

/-- `formatCsvCell` (App.jsx lines 397-412): empty string for absent
values; integers render via `toString`; other numbers via
`Number(value.toFixed(3)).toString()`; everything else is stringified with
embedded double quotes doubled and wrapped in double quotes. -/
def formatCsvCell : CsvValue → String
  | .null => ""
  | .num q => if q.den = 1 then toString q.num else renderFixed3 q
  | .str s => "\"" ++ s.replace "\"" "\"\"" ++ "\""

/-- Modelled from the spec: the serializer's numeric rendering as the spec
words it — "otherwise truncated to 3 decimal digits" — i.e. the 3-decimal
digit string obtained by truncation toward zero, minimally rendered; kept
separate from the source-derived `formatCsvCell` for comparison. -/
def renderTruncated3 (q : ℚ) : String :=
  let r : ℤ := if 0 ≤ q then ⌊q * 1000⌋ else -⌊-(q * 1000)⌋
  if r = 0 then "0"
  else
    let sign := if r < 0 then "-" else ""
    let a := r.natAbs
    let intPart := a / 1000
    let frac := a % 1000
    if frac = 0 then sign ++ toString intPart
    else
      let fw := fracDigits frac
      sign ++ toString intPart ++ "." ++ padZeros (toString fw.1) fw.2

/-- Modelled from the spec: `formatCsvCell` as the spec describes it, with
non-integral numeric cells truncated (not rounded) to 3 decimal digits. -/
def formatCsvCellTruncated : CsvValue → String
  | .null => ""
  | .num q => if q.den = 1 then toString q.num else renderTruncated3 q
  | .str s => "\"" ++ s.replace "\"" "\"\"" ++ "\""

/-- Modelled from the spec: the statistical variance of a list of values,
`variance(v) = (Σ (vᵢ - mean v)²) / n`, as the spec's degenerate-fit
condition words it (the source's local `variance` is the raw sum, without
the division). -/
def specVariance (values : List ℚ) : ℚ :=
  (values.map (fun v => (v - mean values) * (v - mean values))).sum /
    (if values.length = 0 then 1 else (values.length : ℚ))

/-- Modelled from the spec: the statistical covariance
`covariance(m, t) = (Σ (mᵢ - mean m)·(tᵢ - mean t)) / n`. -/
def specCovariance (ms ts : List ℚ) : ℚ :=
  ((ms.zip ts).map (fun p => (p.1 - mean ms) * (p.2 - mean ts))).sum /
    (if ms.length = 0 then 1 else (ms.length : ℚ))

/-- C1: the serialized record has exactly the spec schema's columns in the
spec schema's order, but the claimed totals are wrong: there are 84
columns, not 81 (and hence 78 numeric columns after excluding the six
metadata columns, not 75). -/
theorem C1_counterexample :
    AGGREGATED_CSV_HEADERS.length = 84 ∧ AGGREGATED_CSV_HEADERS.length ≠ 81 ∧
    (AGGREGATED_CSV_HEADERS.filter
      (fun h => !(metadataColumns.contains h))).length ≠ 75 := by
  refine ⟨by decide, by decide, by decide⟩

/-- C1 (amended): the serialized feature record consists of exactly the
columns enumerated in the spec's schema, in that exact order, totalling 84
columns, of which exactly 78 numeric feature columns remain after
excluding the six metadata columns `Source_File`, `level_2`,
`Participant`, `Gender`, `Class`, `CARS_Score_is_ASD`. -/
theorem C1_schema :
    AGGREGATED_CSV_HEADERS = specSchemaColumns ∧
    AGGREGATED_CSV_HEADERS.length = 84 ∧
    (AGGREGATED_CSV_HEADERS.filter
      (fun h => !(metadataColumns.contains h))).length = 78 := by
  refine ⟨by decide, by decide, by decide⟩

/-- C2: the Feature Aggregator does not return a defaulted feature vector
for an empty sample window — it returns `null` (`none`), at the concrete
empty window with age 7 and gender `M`. -/
theorem C2_counterexample : computeAggregatedFeatures [] 7 "M" = none := rfl

/-- C2 (amended): for every empty sample window, the Feature Aggregator
returns `null` (no feature vector at all), and finalization surfaces the
session error "Unable to compute features from samples." instead of
serializing any record. -/
theorem C2_empty_window (age : ℚ) (gender : String) :
    computeAggregatedFeatures [] age gender = none ∧
    finalizeAssessment [] age gender =
      .error "Unable to compute features from samples." := by
  exact ⟨rfl, rfl⟩

/-- C3: the degenerate-fit fallback is *not* triggered whenever the
statistical variance of the measured values is below `1e-6`: for measured
values `[0, 0.002, 0, 0, 0]` (variance `6.4e-7 < 1e-6`) against targets
`[0, 1, 0, 0, 0]`, the code takes the regression branch and fits
`scale = 500`, not the claimed `scale = 1`. -/
theorem C3_counterexample :
    specVariance [0, 1/500, 0, 0, 0] < 1 / 1000000 ∧
    (computeAxisMapping [0, 1/500, 0, 0, 0] [0, 1, 0, 0, 0]).scale = 500 ∧
    (500 : ℚ) ≠ 1 := by
  refine ⟨by norm_num [specVariance, mean],
    ?_, by norm_num⟩
  norm_num [computeAxisMapping, mean, List.zip]

/-- C3 (amended): the fallback condition is on the raw sum of squared
deviations of the measured values (`n` times the variance), not the
variance itself: when that sum is below `1e-6` the fit is
`scale = 1, offset = mean(target) − mean(measured)`; otherwise
`scale = covariance(measured, target) / variance(measured)` (the
statistical ratio — the `1/n` factors cancel) and
`offset = mean(target) − scale · mean(measured)`. -/
theorem C3_axis_fit (measured target : List ℚ) :
    ((measured.map
        (fun v => (v - mean measured) * (v - mean measured))).sum
        < 1 / 1000000 →
      computeAxisMapping measured target =
        { scale := 1, offset := mean target - mean measured }) ∧
    (¬ (measured.map
        (fun v => (v - mean measured) * (v - mean measured))).sum
        < 1 / 1000000 →
      computeAxisMapping measured target =
        { scale := specCovariance measured target / specVariance measured,
          offset := mean target -
            specCovariance measured target / specVariance measured *
              mean measured }) := by
  constructor
  · intro h
    simp only [computeAxisMapping]
    rw [if_pos h]
  · intro h
    have hnQ : (if measured.length = 0 then (1 : ℚ)
        else (measured.length : ℚ)) ≠ 0 := by
      split
      · exact one_ne_zero
      · exact_mod_cast ‹¬ measured.length = 0›
    have hratio :
        specCovariance measured target / specVariance measured =
          ((measured.zip target).map
            (fun p => (p.1 - mean measured) * (p.2 - mean target))).sum /
          (measured.map
            (fun v => (v - mean measured) * (v - mean measured))).sum := by
      rw [specCovariance, specVariance, div_div_div_comm, div_self hnQ,
        div_one]
    simp only [computeAxisMapping]
    rw [if_neg h, hratio]

/-- Witness for `C3_axis_fit` at the concrete fit of `[0, 1]` against
`[0, 2]`, whose squared-deviation sum `1/2` is not below the threshold. -/
theorem C3_axis_fit_witness :
    ¬ ((([0, 1] : List ℚ).map
        (fun v => (v - mean [0, 1]) * (v - mean [0, 1]))).sum
        < 1 / 1000000) ∧
    computeAxisMapping [0, 1] [0, 2] =
      { scale := specCovariance [0, 1] [0, 2] / specVariance [0, 1],
        offset := mean [0, 2] -
          specCovariance [0, 1] [0, 2] / specVariance [0, 1] *
            mean [0, 1] } :=
  ⟨by norm_num [mean], (C3_axis_fit [0, 1] [0, 2]).2 (by norm_num [mean])⟩

/-- Zipping a list with itself pairs each element with itself. -/
theorem zip_self_eq_map (l : List ℚ) : l.zip l = l.map (fun a => (a, a)) := by
  induction l with
  | nil => rfl
  | cons a t ih => simp [List.zip_cons_cons, ih]

/-- Fitting an axis against itself always yields the identity map: the
degenerate branch gives offset `mean − mean = 0`, and the regression
branch gives `scale = S/S = 1` for the nonzero squared-deviation sum `S`. -/
theorem computeAxisMapping_self (l : List ℚ) :
    computeAxisMapping l l = { scale := 1, offset := 0 } := by
  simp only [computeAxisMapping]
  by_cases h :
      (l.map (fun v => (v - mean l) * (v - mean l))).sum < 1 / 1000000
  · rw [if_pos h]
    simp
  · rw [if_neg h]
    have hcov :
        ((l.zip l).map
          (fun p => (p.1 - mean l) * (p.2 - mean l))).sum =
          (l.map (fun v => (v - mean l) * (v - mean l))).sum := by
      rw [zip_self_eq_map, List.map_map]
      rfl
    have hS : (l.map (fun v => (v - mean l) * (v - mean l))).sum ≠ 0 := by
      intro h0
      exact h (by rw [h0]; norm_num)
    rw [hcov, div_self hS]
    simp

/-- C4: the round-trip law fails in general — fitting the five standard
calibration targets against measured x-values `[0, 0, 0, 0, 1]` (y-values
already equal to the targets) gives the x-map `scale = 3/8`,
`offset = 17/40`, and applying the fitted model to the third measured
point `(0, 0.2)` yields x-coordinate `17/40 = 0.425`, missing its target
`0.8` by `3/8 = 0.375` — not within any small tolerance. -/
theorem C4_counterexample :
    (4/5 : ℚ) -
      (applyCalibration
        (computeLinearMapping
          [⟨⟨0, 1/2⟩, ⟨1/2, 1/2⟩⟩, ⟨⟨0, 1/5⟩, ⟨1/5, 1/5⟩⟩,
           ⟨⟨0, 1/5⟩, ⟨4/5, 1/5⟩⟩, ⟨⟨0, 4/5⟩, ⟨1/5, 4/5⟩⟩,
           ⟨⟨1, 4/5⟩, ⟨4/5, 4/5⟩⟩])
        ⟨0, 1/5⟩).x = 3/8 ∧ ¬ ((3/8 : ℚ) < 1/4) := by
  constructor
  · norm_num [applyCalibration, computeLinearMapping, computeAxisMapping,
      mean, clamp, List.zip_cons_cons]
  · norm_num

/-- C4 (amended): in the exact special case where every measured point
equals its target, the fitted model is the identity mapping
(`scale = 1, offset = 0` per axis, exactly) and applying it reproduces
each in-range calibration point exactly; for general calibration pairs the
least-squares fit need not reproduce its own targets. -/
theorem C4_identity_roundtrip (pairs : List CalPair)
    (h : ∀ p ∈ pairs, p.measured = p.target) :
    computeLinearMapping pairs = defaultCalibrationModel ∧
    ∀ p ∈ pairs, 0 ≤ p.target.x → p.target.x ≤ 1 →
      0 ≤ p.target.y → p.target.y ≤ 1 →
      applyCalibration (computeLinearMapping pairs) p.measured = p.target := by
  have hmodel : computeLinearMapping pairs = defaultCalibrationModel := by
    by_cases hlen : pairs.length = 0
    · simp only [computeLinearMapping]
      rw [if_pos hlen]
    · simp only [computeLinearMapping]
      rw [if_neg hlen]
      have hx : pairs.map (fun pair => pair.measured.x) =
          pairs.map (fun pair => pair.target.x) :=
        List.map_congr_left (fun p hp => by rw [h p hp])
      have hy : pairs.map (fun pair => pair.measured.y) =
          pairs.map (fun pair => pair.target.y) :=
        List.map_congr_left (fun p hp => by rw [h p hp])
      rw [hx, hy, computeAxisMapping_self, computeAxisMapping_self]
      rfl
  refine ⟨hmodel, fun p hp hx0 hx1 hy0 hy1 => ?_⟩
  rw [hmodel, h p hp]
  simp only [applyCalibration, defaultCalibrationModel, one_mul, add_zero,
    clamp]
  have ex : min (max p.target.x 0) 1 = p.target.x := by
    rw [max_eq_left hx0, min_eq_left hx1]
  have ey : min (max p.target.y 0) 1 = p.target.y := by
    rw [max_eq_left hy0, min_eq_left hy1]
  rw [ex, ey]

/-- Witness for `C4_identity_roundtrip`: the five calibration targets used
as their own measured points fit to the identity model, and the model maps
the center point to itself. -/
theorem C4_identity_roundtrip_witness :
    computeLinearMapping
      [⟨⟨1/2, 1/2⟩, ⟨1/2, 1/2⟩⟩, ⟨⟨1/5, 1/5⟩, ⟨1/5, 1/5⟩⟩,
       ⟨⟨4/5, 1/5⟩, ⟨4/5, 1/5⟩⟩, ⟨⟨1/5, 4/5⟩, ⟨1/5, 4/5⟩⟩,
       ⟨⟨4/5, 4/5⟩, ⟨4/5, 4/5⟩⟩] = defaultCalibrationModel ∧
    applyCalibration
      (computeLinearMapping
        [⟨⟨1/2, 1/2⟩, ⟨1/2, 1/2⟩⟩, ⟨⟨1/5, 1/5⟩, ⟨1/5, 1/5⟩⟩,
         ⟨⟨4/5, 1/5⟩, ⟨4/5, 1/5⟩⟩, ⟨⟨1/5, 4/5⟩, ⟨1/5, 4/5⟩⟩,
         ⟨⟨4/5, 4/5⟩, ⟨4/5, 4/5⟩⟩])
      ⟨1/2, 1/2⟩ = ⟨1/2, 1/2⟩ := by
  have h := C4_identity_roundtrip
    [⟨⟨1/2, 1/2⟩, ⟨1/2, 1/2⟩⟩, ⟨⟨1/5, 1/5⟩, ⟨1/5, 1/5⟩⟩,
     ⟨⟨4/5, 1/5⟩, ⟨4/5, 1/5⟩⟩, ⟨⟨1/5, 4/5⟩, ⟨1/5, 4/5⟩⟩,
     ⟨⟨4/5, 4/5⟩, ⟨4/5, 4/5⟩⟩]
    (by intro p hp; fin_cases hp <;> rfl)
  exact ⟨h.1, h.2 ⟨⟨1/2, 1/2⟩, ⟨1/2, 1/2⟩⟩ (by simp)
    (by norm_num) (by norm_num) (by norm_num) (by norm_num)⟩

/-- The 10-sample window of the spec's end-to-end scenario B: openness
alternating `0.05` (below the blink threshold) and `0.9` (above the reopen
threshold). -/
def altWindow : List ℚ :=
  [5/100, 9/10, 5/100, 9/10, 5/100, 9/10, 5/100, 9/10, 5/100, 9/10]

/-- The counter increment of one blink step is the indicator of an
open-to-closed transition at that step. -/
theorem blinkStep_snd_eq (s : BlinkState) (o : ℚ) :
    (blinkStep s o).2 =
      if s = .opened ∧ (blinkStep s o).1 = .closed then 1 else 0 := by
  cases s <;>
    by_cases ho : o < BLINK_THRESHOLD <;>
    by_cases ho2 : blinkOpenThreshold < o <;>
    simp [blinkStep, ho, ho2]

/-- The blink counter accumulated by the run equals the starting value plus
the number of open-to-closed transitions in the window. -/
theorem runBlink_count_aux : ∀ (w : List ℚ) (s : BlinkState) (n : ℕ),
    (w.foldl
      (fun acc openness =>
        let step := blinkStep acc.1 openness
        (step.1, acc.2 + step.2))
      (s, n)).2 = n + openToClosedCount s w := by
  intro w
  induction w with
  | nil => intro s n; simp [openToClosedCount]
  | cons o rest ih =>
    intro s n
    simp only [List.foldl_cons, openToClosedCount]
    rw [ih]
    rw [blinkStep_snd_eq s o]
    by_cases h : s = .opened ∧ (blinkStep s o).1 = .closed
    all_goals simp [h]
    all_goals omega

/-- C5: per step, the state machine moves open→closed exactly when the
average openness drops below `0.18` while open, closed→open exactly when
it exceeds `0.24` while closed, and the blink counter gains exactly 1 on
each open→closed transition and nothing otherwise; over any window the
accumulated count equals the number of open→closed transitions, and on
scenario B's alternating `0.05`/`0.9` window the count is 5 (one per
transition), not 10. -/
theorem C5_blink_machine :
    (∀ (s : BlinkState) (o : ℚ),
      (s = .opened →
        ((blinkStep s o).1 = .closed ↔ o < BLINK_THRESHOLD)) ∧
      (s = .closed →
        ((blinkStep s o).1 = .opened ↔ blinkOpenThreshold < o)) ∧
      ((blinkStep s o).2 = 1 ↔ s = .opened ∧ o < BLINK_THRESHOLD) ∧
      ((blinkStep s o).2 = 0 ∨ (blinkStep s o).2 = 1)) ∧
    (∀ (s : BlinkState) (w : List ℚ),
      (runBlink s w).2 = openToClosedCount s w) ∧
    runBlink .opened altWindow = (.opened, 5) ∧
    openToClosedCount .opened altWindow = 5 := by
  refine ⟨?_, ?_, ?_, ?_⟩
  · intro s o
    cases s <;>
      by_cases ho : o < BLINK_THRESHOLD <;>
      by_cases ho2 : blinkOpenThreshold < o <;>
      simp [blinkStep, ho, ho2]
  · intro s w
    have h := runBlink_count_aux w s 0
    simpa [runBlink] using h
  · norm_num [runBlink, altWindow, blinkStep, BLINK_THRESHOLD,
      blinkOpenThreshold]
  · norm_num [openToClosedCount, altWindow, blinkStep, BLINK_THRESHOLD,
      blinkOpenThreshold]
    decide

/-- Witness for `C5_blink_machine` at concrete steps: openness `0.05`
closes an open eye state and openness `0.9` reopens a closed one. -/
theorem C5_blink_machine_witness :
    ((blinkStep .opened (5/100)).1 = .closed ↔
      (5/100 : ℚ) < BLINK_THRESHOLD) ∧
    ((blinkStep .closed (9/10)).1 = .opened ↔
      blinkOpenThreshold < (9/10 : ℚ)) :=
  ⟨(C5_blink_machine.1 .opened (5/100)).1 rfl,
    (C5_blink_machine.1 .closed (9/10)).2.1 rfl⟩

/-- Filtering an enumerated list by a predicate on the elements alone
keeps as many entries as filtering the plain list. -/
theorem length_filter_enumFrom (q : GazeSample → Prop) [DecidablePred q] :
    ∀ (n : ℕ) (l : List GazeSample),
      ((List.enumFrom n l).filter (fun x => q x.2)).length =
        (l.filter (fun s => q s)).length := by
  intro n l
  induction l generalizing n with
  | nil => rfl
  | cons s t ih =>
    by_cases hq : q s <;>
      simp [List.enumFrom, List.filter_cons, hq, ih]

/-- Partition lemma: when every index lands in one of the four segments,
the four filtered counts over an enumerated list sum to the unsegmented
count. -/
theorem four_segment_partition (cat : String) (g : ℕ → ℕ)
    (hg : ∀ i, g i < 4) :
    ∀ L : List (ℕ × GazeSample),
      (L.filter (fun x => g x.1 = 0 ∧ sampleHasCategory x.2 cat)).length +
      (L.filter (fun x => g x.1 = 1 ∧ sampleHasCategory x.2 cat)).length +
      (L.filter (fun x => g x.1 = 2 ∧ sampleHasCategory x.2 cat)).length +
      (L.filter (fun x => g x.1 = 3 ∧ sampleHasCategory x.2 cat)).length =
      (L.filter (fun x => sampleHasCategory x.2 cat)).length := by
  intro L
  induction L with
  | nil => rfl
  | cons x t ih =>
    by_cases hc : sampleHasCategory x.2 cat
    · have hx := hg x.1
      interval_cases h : g x.1 <;>
        (simp [List.filter_cons, hc, h] at ih ⊢; omega)
    · simp [List.filter_cons, hc] at ih ⊢
      omega

/-- C6: for every sample window and category, the four per-segment counts
sum to the number of samples in which either eye exhibits the category;
every sample index is assigned to exactly one of the segments `0..3`, and
the assignment is monotone in the index (so the segments are contiguous
slices of the window). -/
theorem C6_segment_counts (samples : List GazeSample) (cat : String) :
    segmentCount samples cat 0 + segmentCount samples cat 1 +
      segmentCount samples cat 2 + segmentCount samples cat 3 =
      categoryCount samples cat ∧
    (∀ idx : ℕ, segmentIndex samples.length idx < 4) ∧
    (∀ i j : ℕ, i ≤ j →
      segmentIndex samples.length i ≤ segmentIndex samples.length j) := by
  refine ⟨?_, ?_, ?_⟩
  · have h4 : ∀ i, segmentIndex samples.length i < 4 := fun i =>
      Nat.lt_succ_of_le (min_le_left _ _)
    have hpart := four_segment_partition cat
      (segmentIndex samples.length) h4 samples.enum
    have henum := length_filter_enumFrom
      (fun s => sampleHasCategory s cat) 0 samples
    simpa [segmentCount, categoryCount, List.enum, henum] using hpart
  · exact fun idx => Nat.lt_succ_of_le (min_le_left _ _)
  · intro i j hij
    exact min_le_min (le_refl 3)
      (Nat.div_le_div_right hij)

/-- Witness for `C6_segment_counts` on a concrete 2-sample window. -/
theorem C6_segment_counts_witness :
    (segmentCount
        [⟨0, "Fixation", "Saccade", 0, 0, 0, 0, 0, 0, 0⟩,
         ⟨100, "Saccade", "Saccade", 0, 0, 0, 0, 0, 0, 0⟩] "Fixation" 0 +
      segmentCount
        [⟨0, "Fixation", "Saccade", 0, 0, 0, 0, 0, 0, 0⟩,
         ⟨100, "Saccade", "Saccade", 0, 0, 0, 0, 0, 0, 0⟩] "Fixation" 1 +
      segmentCount
        [⟨0, "Fixation", "Saccade", 0, 0, 0, 0, 0, 0, 0⟩,
         ⟨100, "Saccade", "Saccade", 0, 0, 0, 0, 0, 0, 0⟩] "Fixation" 2 +
      segmentCount
        [⟨0, "Fixation", "Saccade", 0, 0, 0, 0, 0, 0, 0⟩,
         ⟨100, "Saccade", "Saccade", 0, 0, 0, 0, 0, 0, 0⟩] "Fixation" 3 =
      categoryCount
        [⟨0, "Fixation", "Saccade", 0, 0, 0, 0, 0, 0, 0⟩,
         ⟨100, "Saccade", "Saccade", 0, 0, 0, 0, 0, 0, 0⟩] "Fixation") ∧
    segmentIndex 2 0 ≤ segmentIndex 2 1 :=
  ⟨(C6_segment_counts
      [⟨0, "Fixation", "Saccade", 0, 0, 0, 0, 0, 0, 0⟩,
       ⟨100, "Saccade", "Saccade", 0, 0, 0, 0, 0, 0, 0⟩] "Fixation").1,
    by
      have h := (C6_segment_counts
        [⟨0, "Fixation", "Saccade", 0, 0, 0, 0, 0, 0, 0⟩,
         ⟨100, "Saccade", "Saccade", 0, 0, 0, 0, 0, 0, 0⟩] "Fixation").2.2
        0 1 (by decide)
      simpa using h⟩

/-- The valid-frame counter never exceeds the total-frame counter. -/
theorem runFrames_valid_le_total (frames : List Bool) :
    (runFrames frames).samplesValid ≤ (runFrames frames).samplesTotal := by
  have aux : ∀ (fs : List Bool) (c : TrackCounters),
      c.samplesValid ≤ c.samplesTotal →
      (fs.foldl processFrame c).samplesValid ≤
        (fs.foldl processFrame c).samplesTotal := by
    intro fs
    induction fs with
    | nil => exact fun c hc => hc
    | cons b t ih =>
      intro c hc
      refine ih _ ?_
      cases b <;> simp [processFrame] <;> omega
  exact aux frames _ (Nat.le_refl 0)

/-- `round2` is monotone. -/
theorem round2_mono {x y : ℚ} (h : x ≤ y) : round2 x ≤ round2 y := by
  unfold round2
  have hf : ⌊x * 100 + 1 / 2⌋ ≤ ⌊y * 100 + 1 / 2⌋ :=
    Int.floor_le_floor (by linarith)
  have : ((⌊x * 100 + 1 / 2⌋ : ℤ) : ℚ) ≤ ((⌊y * 100 + 1 / 2⌋ : ℤ) : ℚ) := by
    exact_mod_cast hf
  linarith

/-- `round2` of a value in `[0, 100]` stays in `[0, 100]`. -/
theorem round2_bounds {x : ℚ} (h0 : 0 ≤ x) (h1 : x ≤ 100) :
    0 ≤ round2 x ∧ round2 x ≤ 100 := by
  constructor
  · have hz : (0 : ℤ) ≤ ⌊x * 100 + 1 / 2⌋ :=
      Int.le_floor.mpr (by push_cast; linarith)
    unfold round2
    have : (0 : ℚ) ≤ ((⌊x * 100 + 1 / 2⌋ : ℤ) : ℚ) := by exact_mod_cast hz
    linarith
  · have hz : ⌊x * 100 + 1 / 2⌋ ≤ 10000 := by
      rw [Int.floor_le_iff]
      push_cast
      linarith
    unfold round2
    have : ((⌊x * 100 + 1 / 2⌋ : ℤ) : ℚ) ≤ 10000 := by exact_mod_cast hz
    linarith

/-- C7: after any sequence of processed frames the tracking ratio lies in
`[0, 100]`, and for a fixed total-frame count the ratio is non-decreasing
in the valid-frame count. -/
theorem C7_tracking_ratio :
    (∀ frames : List Bool,
      0 ≤ trackingRatioOf (runFrames frames) ∧
      trackingRatioOf (runFrames frames) ≤ 100) ∧
    (∀ (total valid valid' : ℕ), valid ≤ valid' →
      trackingRatioOf ⟨total, valid⟩ ≤ trackingRatioOf ⟨total, valid'⟩) := by
  constructor
  · intro frames
    have hle := runFrames_valid_le_total frames
    set c := runFrames frames with hc
    unfold trackingRatioOf
    by_cases ht : 0 < c.samplesTotal
    · rw [if_pos ht]
      have htQ : (0 : ℚ) < (c.samplesTotal : ℚ) := by exact_mod_cast ht
      have hdiv0 : (0 : ℚ) ≤ (c.samplesValid : ℚ) / (c.samplesTotal : ℚ) :=
        div_nonneg (by positivity) (le_of_lt htQ)
      have hdiv1 : (c.samplesValid : ℚ) / (c.samplesTotal : ℚ) ≤ 1 :=
        (div_le_one htQ).mpr (by exact_mod_cast hle)
      exact round2_bounds (by linarith) (by linarith)
    · rw [if_neg ht]
      norm_num
  · intro total valid valid' hv
    unfold trackingRatioOf
    by_cases ht : 0 < total
    · simp only [if_pos ht]
      have htQ : (0 : ℚ) < (total : ℚ) := by exact_mod_cast ht
      have hvQ : (valid : ℚ) ≤ (valid' : ℚ) := by exact_mod_cast hv
      refine round2_mono ?_
      gcongr
    · simp [if_neg ht]

/-- Witness for `C7_tracking_ratio`: one valid frame out of two never
reports a higher ratio than two valid frames out of two. -/
theorem C7_tracking_ratio_witness :
    trackingRatioOf ⟨2, 1⟩ ≤ trackingRatioOf ⟨2, 2⟩ :=
  C7_tracking_ratio.2 2 1 2 (by decide)

/-- The exact numeric value whose minimal decimal rendering
`renderFixed3` emits: the input rounded to 3 decimal places, ties toward
positive infinity. -/
def roundedCellValue (q : ℚ) : ℚ := ((⌊q * 1000 + 1/2⌋ : ℤ) : ℚ) / 1000

/-- C8: the serializer rounds, it does not truncate — at the non-integral
numeric value `0.9996`, the code renders `"1"` (rounding `0.9996` up to
`1.000` and re-reading it as the integer `1`), while truncation to 3
decimal digits as the claim states would render `"0.999"`. -/
theorem C8_counterexample :
    formatCsvCell (.num (2499/2500)) = "1" ∧
    formatCsvCellTruncated (.num (2499/2500)) = "0.999" ∧
    ("1" : String) ≠ "0.999" := by
  have hden : ((2499/2500 : ℚ)).den ≠ 1 := by norm_num
  have hr : (⌊(2499/2500 : ℚ) * 1000 + 1/2⌋ : ℤ) = 1000 := by
    norm_num [Int.floor_eq_iff]
  have ht : (⌊(2499/2500 : ℚ) * 1000⌋ : ℤ) = 999 := by
    norm_num [Int.floor_eq_iff]
  refine ⟨?_, ?_, by decide⟩
  · simp only [formatCsvCell, if_neg hden, renderFixed3, hr]
    decide
  · simp only [formatCsvCellTruncated, if_neg hden, renderTruncated3,
      if_pos (by norm_num : (0 : ℚ) ≤ 2499/2500), ht]
    decide

/-- C8 (amended): numeric cells render as plain integer strings when the
value is integral, and otherwise via rounding (not truncation) to 3
decimal digits — ties toward positive infinity — followed by minimal
re-rendering; the rounded value the rendering encodes differs from the
true value by at most `1/2000`.  Non-numeric cells render as double-quoted
strings with every embedded double quote doubled, and absent cells render
empty. -/
theorem C8_formatting (q : ℚ) (s : String) :
    (q.den = 1 → formatCsvCell (.num q) = toString q.num) ∧
    (q.den ≠ 1 →
      formatCsvCell (.num q) = renderFixed3 q ∧
      |roundedCellValue q - q| ≤ 1 / 2000) ∧
    formatCsvCell (.str s) = "\"" ++ s.replace "\"" "\"\"" ++ "\"" ∧
    formatCsvCell .null = "" := by
  refine ⟨?_, ?_, rfl, rfl⟩
  · intro h
    simp [formatCsvCell, h]
  · intro h
    refine ⟨by simp [formatCsvCell, h], ?_⟩
    have h1 : ((⌊q * 1000 + 1/2⌋ : ℤ) : ℚ) ≤ q * 1000 + 1/2 :=
      Int.floor_le _
    have h2 : q * 1000 + 1/2 < ((⌊q * 1000 + 1/2⌋ : ℤ) : ℚ) + 1 :=
      Int.lt_floor_add_one _
    rw [abs_le]
    unfold roundedCellValue
    constructor <;> linarith

/-- Witness for `C8_formatting`: the integral value `5` renders as `"5"`
and the non-integral value `0.05` renders through `renderFixed3`. -/
theorem C8_formatting_witness :
    formatCsvCell (.num 5) = toString (5 : ℚ).num ∧
    formatCsvCell (.num (1/20)) = renderFixed3 (1/20) :=
  ⟨(C8_formatting 5 "").1 (by norm_num),
   ((C8_formatting (1/20) "").2.1 (by norm_num)).1⟩

/-- Modelled from the claim's words: the average fixation duration as the
mean of inter-sample intervals over every consecutive pair whose previous
and current samples both classify as Fixation under the window rule (a
sample counts if *either* eye exhibits the category), defaulting to 0 when
no such pair exists; kept separate from the source-derived
`fixDurationsOf` for comparison. -/
def specFixDurAvg (samples : List GazeSample) : ℚ :=
  let ds := (samples.zip samples.tail).filterMap
    (fun p =>
      if sampleHasCategory p.1 "Fixation" ∧
          sampleHasCategory p.2 "Fixation" then
        some ((p.2.recordingTimeMs - p.1.recordingTimeMs) / 1000)
      else none)
  if ds.length = 0 then 0 else ds.sum / (ds.length : ℚ)

/-- The amended claim's interval list, formalized independently by direct
recursion over consecutive samples: one interval per adjacent pair with
positive elapsed time whose samples both have *right-eye* classification
Fixation. -/
def consecFixDurations : List GazeSample → List ℚ
  | prev :: curr :: rest =>
      (if 0 < (curr.recordingTimeMs - prev.recordingTimeMs) / 1000 ∧
          curr.categoryRight = "Fixation" ∧
          prev.categoryRight = "Fixation" then
        [(curr.recordingTimeMs - prev.recordingTimeMs) / 1000]
      else []) ++ consecFixDurations (curr :: rest)
  | _ => []

/-- The source's zip-with-tail interval list agrees with the recursive
consecutive-pair formalization. -/
theorem fixDurationsOf_eq_consec (l : List GazeSample) :
    fixDurationsOf l = consecFixDurations l := by
  induction l with
  | nil => rfl
  | cons a t ih =>
    cases t with
    | nil => rfl
    | cons b t2 =>
      simp only [fixDurationsOf] at ih ⊢
      simp only [List.tail_cons, List.zip_cons_cons, List.filterMap_cons,
        consecFixDurations] at ih ⊢
      by_cases hcond : a.recordingTimeMs < b.recordingTimeMs ∧
          b.categoryRight = "Fixation" ∧ a.categoryRight = "Fixation"
      all_goals simp [hcond] at ih ⊢
      all_goals exact ih

/-- C9: the average fixation duration does *not* use the either-eye window
rule — on a 2-sample window whose samples are Fixation in the left eye
only (right eye Saccade), 100 ms apart, the aggregator reports
`fix_dur_avg = 0` while the claim's either-eye rule would give the mean
interval `0.1 s`. -/
theorem C9_counterexample :
    (computeAggregatedFeatures
      [⟨0, "Saccade", "Fixation", 0, 0, 0, 0, 0, 0, 0⟩,
       ⟨100, "Saccade", "Fixation", 0, 0, 0, 0, 0, 0, 0⟩] 7 "M").map
      AggregatedFeatures.fixDurAvg = some 0 ∧
    specFixDurAvg
      [⟨0, "Saccade", "Fixation", 0, 0, 0, 0, 0, 0, 0⟩,
       ⟨100, "Saccade", "Fixation", 0, 0, 0, 0, 0, 0, 0⟩] = 1/10 ∧
    (0 : ℚ) ≠ 1/10 := by
  have hsc : ("Saccade" : String) ≠ "Fixation" := by decide
  refine ⟨?_, ?_, by norm_num⟩
  · simp only [computeAggregatedFeatures]
    norm_num [fixDurAvgOf, fixDurationsOf, sampleHasCategory, hsc,
      List.zip_cons_cons, List.filterMap_cons]
  · norm_num [specFixDurAvg, sampleHasCategory, hsc, List.zip_cons_cons,
      List.filterMap_cons]

/-- C9 (amended): the average fixation duration equals the mean of the
inter-sample intervals (in seconds) over every consecutive pair with
positive elapsed time whose previous and current samples both have
*right-eye* classification Fixation, defaulting to 0 when no such pair
exists. -/
theorem C9_fix_dur_avg (samples : List GazeSample) (age : ℚ)
    (gender : String) (h : samples ≠ []) :
    (computeAggregatedFeatures samples age gender).map
      AggregatedFeatures.fixDurAvg =
      some (if consecFixDurations samples = [] then 0
        else (consecFixDurations samples).sum /
          ((consecFixDurations samples).length : ℚ)) := by
  have hlen : ¬ samples.length = 0 := by
    simpa [List.length_eq_zero] using h
  simp only [computeAggregatedFeatures, if_neg hlen, Option.map_some]
  rw [fixDurAvgOf, fixDurationsOf_eq_consec]
  by_cases hnil : consecFixDurations samples = [] <;>
    simp [hnil, List.length_eq_zero]

/-- Witness for `C9_fix_dur_avg` on a concrete 2-sample window with both
samples right-eye Fixation, 100 ms apart. -/
theorem C9_fix_dur_avg_witness :
    (computeAggregatedFeatures
      [⟨0, "Fixation", "Saccade", 0, 0, 0, 0, 0, 0, 0⟩,
       ⟨100, "Fixation", "Saccade", 0, 0, 0, 0, 0, 0, 0⟩] 7 "M").map
      AggregatedFeatures.fixDurAvg =
      some (if consecFixDurations
          [⟨0, "Fixation", "Saccade", 0, 0, 0, 0, 0, 0, 0⟩,
           ⟨100, "Fixation", "Saccade", 0, 0, 0, 0, 0, 0, 0⟩] = [] then 0
        else (consecFixDurations
            [⟨0, "Fixation", "Saccade", 0, 0, 0, 0, 0, 0, 0⟩,
             ⟨100, "Fixation", "Saccade", 0, 0, 0, 0, 0, 0, 0⟩]).sum /
          ((consecFixDurations
            [⟨0, "Fixation", "Saccade", 0, 0, 0, 0, 0, 0, 0⟩,
             ⟨100, "Fixation", "Saccade", 0, 0, 0, 0, 0, 0, 0⟩]).length :
              ℚ)) :=
  C9_fix_dur_avg
    [⟨0, "Fixation", "Saccade", 0, 0, 0, 0, 0, 0, 0⟩,
     ⟨100, "Fixation", "Saccade", 0, 0, 0, 0, 0, 0, 0⟩] 7 "M"
    (List.cons_ne_nil _ _)

/-- C10: the `Gender_encoded` feature emitted by the aggregator is exactly
1 for gender `"M"`, exactly 0 for `"F"`, and `0.5` for every other input,
including the empty (missing) gender string. -/
theorem C10_gender_encoding (samples : List GazeSample) (age : ℚ)
    (gender : String) (f : AggregatedFeatures)
    (h : computeAggregatedFeatures samples age gender = some f) :
    (gender = "M" → f.genderEncoded = 1) ∧
    (gender = "F" → f.genderEncoded = 0) ∧
    (gender ≠ "M" → gender ≠ "F" → f.genderEncoded = 1/2) := by
  unfold computeAggregatedFeatures at h
  split at h
  · exact absurd h (by simp)
  · obtain rfl := Option.some.inj h
    refine ⟨fun hM => ?_, fun hF => ?_, fun hM hF => ?_⟩
    · simp [genderEncodedOf, hM]
    · simp [genderEncodedOf, hF]
    · simp [genderEncodedOf, hM, hF]

/-- Witness for `C10_gender_encoding`: a one-sample session with the empty
gender string encodes gender as `0.5`. -/
theorem C10_gender_encoding_witness :
    (computeAggregatedFeatures
      [⟨0, "Fixation", "Fixation", 0, 0, 0, 0, 0, 0, 0⟩] 7 "").map
      AggregatedFeatures.genderEncoded = some (1/2) := by
  obtain ⟨f, hf⟩ : ∃ f, computeAggregatedFeatures
      [⟨0, "Fixation", "Fixation", 0, 0, 0, 0, 0, 0, 0⟩] 7 "" = some f :=
    ⟨_, rfl⟩
  have henc := (C10_gender_encoding _ 7 "" _ hf).2.2
    (by decide) (by decide)
  rw [hf]
  simp [henc]

end Neurogaze
